import Mathlib

/-!
Shallow embedding of the trajectory-sandbox-tools OpenClaw plugin
(`extensions/trajectory-sandbox-tools/index.ts`, with the earlier revision of
the extractor kept under the repository's unnamed sources) together with
theorems about its tool catalog, parameter extraction, fixture-server proxy
and registration loop.
-/

namespace TrajectorySandbox

/-- JavaScript runtime values, as far as the plugin inspects them:
`undefined` and `null` are distinct, arrays are distinct from plain objects,
and object fields keep insertion order (the order `JSON.stringify` uses). -/
inductive JSValue where
  | undef
  | null
  | bool (b : Bool)
  | num (n : Int)
  | str (s : String)
  | arr (elems : List JSValue)
  | obj (fields : List (String × JSValue))
deriving Repr

/-- A `Record<string, unknown>`: the plugin's canonical parameter objects. -/
abbrev JSRecord := List (String × JSValue)

/-- JavaScript `typeof` on the embedded values (`typeof null` is "object",
and arrays are objects). -/
def jsTypeOf : JSValue → String
  | .undef => "undefined"
  | .null => "object"
  | .bool _ => "boolean"
  | .num _ => "number"
  | .str _ => "string"
  | .arr _ => "object"
  | .obj _ => "object"

/-- `Array.isArray`. -/
def jsIsArray : JSValue → Bool
  | .arr _ => true
  | _ => false

/-- `v === null`. -/
def jsIsNull : JSValue → Bool
  | .null => true
  | _ => false

/-- `v === undefined`. -/
def jsIsUndefined : JSValue → Bool
  | .undef => true
  | _ => false

/-- The fields of a value `as Record<string, unknown>`; only applied on plain
objects in the source. -/
def jsObjFields : JSValue → JSRecord
  | .obj fields => fields
  | _ => []

/-- The underlying string of a value `as string`; only applied on strings in
the source. -/
def jsStringVal : JSValue → String
  | .str s => s
  | _ => ""

/-- Lower hexadecimal digit, as used by `JSON.stringify` for control chars. -/
def hexDigitChar (n : Nat) : Char :=
  if n < 10 then Char.ofNat (48 + n) else Char.ofNat (87 + n)

/-- How `JSON.stringify` escapes one character inside a quoted string. -/
def escapeChar (c : Char) : String :=
  if c = '"' then "\\\""
  else if c = '\\' then "\\\\"
  else if c = '\x08' then "\\b"
  else if c = '\x0c' then "\\f"
  else if c = '\n' then "\\n"
  else if c = '\r' then "\\r"
  else if c = '\t' then "\\t"
  else if c.toNat < 32 then
    "\\u00" ++ String.mk [hexDigitChar (c.toNat / 16), hexDigitChar (c.toNat % 16)]
  else String.singleton c

/-- `JSON.stringify` of a string value (quote and escape). -/
def jsonQuote (s : String) : String :=
  "\"" ++ String.join (s.data.map escapeChar) ++ "\""

mutual

/-- Compact `JSON.stringify(v)`. Returns `none` exactly when JavaScript
returns the value `undefined` instead of a string (top-level `undefined`);
inside objects such fields are dropped, inside arrays they print as null. -/
def stringifyVal : JSValue → Option String
  | .undef => none
  | .null => some "null"
  | .bool b => some (cond b "true" "false")
  | .num n => some (toString n)
  | .str s => some (jsonQuote s)
  | .arr elems =>
    some ("[" ++ String.intercalate "," (stringifyElems elems) ++ "]")
  | .obj fields =>
    some ("\x7b" ++ String.intercalate "," (stringifyFields fields) ++ "\x7d")

/-- Array elements under compact `JSON.stringify` (undefined prints null). -/
def stringifyElems : List JSValue → List String
  | [] => []
  | v :: rest => ((stringifyVal v).getD "null") :: stringifyElems rest

/-- Object fields under compact `JSON.stringify` (undefined-valued fields are
dropped). -/
def stringifyFields : List (String × JSValue) → List String
  | [] => []
  | (k, v) :: rest =>
    match stringifyVal v with
    | some s => (jsonQuote k ++ ":" ++ s) :: stringifyFields rest
    | none => stringifyFields rest

end

/-- `JSON.stringify(body)` where `body` is a `Record<string, unknown>`:
always a string. -/
def stringifyRecord (fields : JSRecord) : String :=
  "\x7b" ++ String.intercalate "," (stringifyFields fields) ++ "\x7d"

mutual

/-- `JSON.stringify(v, null, 2)`: pretty printing with two-space indentation,
`indent` being the current indentation of the enclosing value. -/
def prettyVal (indent : String) : JSValue → Option String
  | .undef => none
  | .null => some "null"
  | .bool b => some (cond b "true" "false")
  | .num n => some (toString n)
  | .str s => some (jsonQuote s)
  | .arr elems =>
    let items := prettyElems (indent ++ "  ") elems
    some (if items.isEmpty then "[]"
      else "[\n" ++ indent ++ "  " ++
        String.intercalate (",\n" ++ indent ++ "  ") items ++ "\n" ++ indent ++ "]")
  | .obj fields =>
    let items := prettyFields (indent ++ "  ") fields
    some (if items.isEmpty then "\x7b\x7d"
      else "\x7b\n" ++ indent ++ "  " ++
        String.intercalate (",\n" ++ indent ++ "  ") items ++ "\n" ++ indent ++ "\x7d")

/-- Array elements under pretty `JSON.stringify`. -/
def prettyElems (indent : String) : List JSValue → List String
  | [] => []
  | v :: rest => ((prettyVal indent v).getD "null") :: prettyElems indent rest

/-- Object fields under pretty `JSON.stringify` (note the `": "` separator
used when an indent gap is present). -/
def prettyFields (indent : String) : List (String × JSValue) → List String
  | [] => []
  | (k, v) :: rest =>
    match prettyVal indent v with
    | some s => (jsonQuote k ++ ": " ++ s) :: prettyFields indent rest
    | none => prettyFields indent rest

end

/-- Top-level `JSON.stringify(result, null, 2)`. -/
def jsonStringifyPretty (v : JSValue) : Option String := prettyVal "" v

/-- Severity of a logger call (`logger.info` / `logger.warn`). -/
inductive LogLevel where
  | info
  | warn
deriving Repr, DecidableEq

/-- One emitted log line. -/
structure LogEntry where
  level : LogLevel
  msg : String
deriving Repr, DecidableEq

/-- The condition `params !== null && params !== undefined &&
typeof params === "object" && !Array.isArray(params)` guarding both uses of a
candidate parameter object in `extractParams` (index.ts). -/
def isUsableParams (v : JSValue) : Bool :=
  !jsIsNull v && !jsIsUndefined v && (jsTypeOf v == "object") && !jsIsArray v

/-- The warning text of the unrecognized-shape fallback (identical in both
revisions of the extractor). -/
def warnShapeMsg : String := "[params-debug] unexpected args shape — returning empty"

/-- `extractParams(args, logger)` from `index.ts` (current revision): the
returned pair is the canonical parameter object and the log entries emitted
through the passed logger. The source never throws on this path, so the
embedding is a total function. -/
def extractParams (args : List JSValue) : JSRecord × List LogEntry :=
  if args.length = 0 then ([], [])
  else if jsTypeOf (args.headD JSValue.undef) = "string" ∧ 2 ≤ args.length then
    let params := args.getD 1 JSValue.undef
    if isUsableParams params then (jsObjFields params, [])
    else ([], [])
  else
    let first := args.headD JSValue.undef
    if isUsableParams first then (jsObjFields first, [])
    else ([], [⟨LogLevel.warn, warnShapeMsg⟩])

/-- The unconditional entry log of the earlier revision's extractor
(`src/unnamed/part_000`): arity plus the argument dump truncated by
`.slice(0, 500)`. -/
def v0CallLogEntry (args : List JSValue) : LogEntry :=
  ⟨LogLevel.info,
    "[params-debug] execute() called with " ++ toString args.length ++
      " arg(s): " ++ ((stringifyVal (JSValue.arr args)).getD "undefined").take 500⟩

/-- The id-branch log of the earlier revision's extractor: the tool call id
truncated by `.slice(0, 30)`. -/
def v0IdLogEntry (args : List JSValue) : LogEntry :=
  ⟨LogLevel.info,
    "[params-debug] args[0] is toolCallId=\"" ++
      (jsStringVal (args.headD JSValue.undef)).take 30 ++ "\", using args[1] as params"⟩

/-- `extractParams(...args)` from the earlier revision
(`src/unnamed/part_000`): same extraction priority, but it logs every call
(truncated argument dump) and returns silently on a null/undefined first
argument. -/
def extractParamsV0 (args : List JSValue) : JSRecord × List LogEntry :=
  if args.length = 0 then ([], [v0CallLogEntry args])
  else if jsTypeOf (args.headD JSValue.undef) = "string" ∧ 2 ≤ args.length then
    let params := args.getD 1 JSValue.undef
    if isUsableParams params then (jsObjFields params, [v0CallLogEntry args, v0IdLogEntry args])
    else ([], [v0CallLogEntry args, v0IdLogEntry args])
  else
    let first := args.headD JSValue.undef
    if jsIsNull first ∨ jsIsUndefined first then ([], [v0CallLogEntry args])
    else if jsTypeOf first = "object" ∧ ¬ jsIsArray first then
      (jsObjFields first, [v0CallLogEntry args])
    else ([], [v0CallLogEntry args, ⟨LogLevel.warn, warnShapeMsg⟩])

/-- The plugin's configuration entry (`PluginConfig` in the source): both
fields optional. -/
structure PluginConfig where
  mockServerUrl : Option String
  scenario : Option String
deriving Repr, DecidableEq

/-- One entry of `api.config.plugins.entries` as the plugin reads it:
an object with an optional `config` field. -/
structure PluginEntry where
  config : Option PluginConfig
deriving Repr, DecidableEq

/-- `getPluginConfig(api)`: resolve
`api.config.plugins?.entries?.["trajectory-sandbox-tools"]?.config ?? {}`;
the entries table itself may be absent. -/
def getPluginConfig (entries : Option (List (String × PluginEntry))) : PluginConfig :=
  match entries with
  | none => ⟨none, none⟩
  | some es =>
    match es.lookup "trajectory-sandbox-tools" with
    | some entry => entry.config.getD ⟨none, none⟩
    | none => ⟨none, none⟩

/-- An HTTP response as `callMockServer` observes it: status and status text,
the result of `response.text()` (`none` when reading the body itself fails)
and the result of `response.json()` (`none` when the body is not valid
JSON). The embedding is conditioned on the transport succeeding; a transport
failure rejects the `fetch` itself and never reaches this code. -/
structure HttpResponse where
  status : Nat
  statusText : String
  bodyTextResult : Option String
  jsonResult : Option JSValue

/-- `response.ok`: status in the 2xx range. -/
def responseOk (r : HttpResponse) : Prop := 200 ≤ r.status ∧ r.status ≤ 299

instance (r : HttpResponse) : Decidable (responseOk r) := by
  unfold responseOk; infer_instance

/-- The outgoing `fetch` request assembled by `callMockServer`. -/
structure FetchRequest where
  url : String
  method : String
  contentType : String
  body : String
deriving Repr, DecidableEq

/-- `const errorText = await response.text().catch(() => "(no body)")`. -/
def mockErrorText (response : HttpResponse) : String :=
  response.bodyTextResult.getD "(no body)"

/-- The pre-call info line `[mock-call] POST <endpoint> body=<bodyStr>`
(note: the body serialization is NOT truncated in the source). -/
def mockPreLogEntry (endpoint : String) (body : JSRecord) : LogEntry :=
  ⟨LogLevel.info, "[mock-call] POST " ++ endpoint ++ " body=" ++ stringifyRecord body⟩

/-- The failure warn line `[mock-call] FAILED ...`. -/
def mockFailLogEntry (endpoint : String) (response : HttpResponse) : LogEntry :=
  ⟨LogLevel.warn,
    "[mock-call] FAILED " ++ endpoint ++ " status=" ++ toString response.status ++
      " response=" ++ mockErrorText response⟩

/-- The message of the error thrown on a non-2xx response. -/
def mockErrorMessage (response : HttpResponse) : String :=
  "Mock server error: " ++ toString response.status ++ " " ++
    response.statusText ++ " — " ++ mockErrorText response

/-- The success info line `[mock-call] OK <endpoint> result=<preview>` with
the result preview truncated by `.slice(0, 200)`. -/
def mockOkLogEntry (endpoint : String) (result : JSValue) : LogEntry :=
  ⟨LogLevel.info,
    "[mock-call] OK " ++ endpoint ++ " result=" ++
      ((stringifyVal result).getD "undefined").take 200⟩

/-- What `callMockServer` does after the response arrives: on non-2xx, read
the body text (placeholder on failure), warn, and throw the diagnostic
error; on 2xx, decode JSON (a decode failure propagates before the OK log),
log the truncated preview and return the decoded value unchanged. -/
def mockResponseOutcome (endpoint : String) (response : HttpResponse) :
    List LogEntry × Except String JSValue :=
  if responseOk response then
    match response.jsonResult with
    | some result => ([mockOkLogEntry endpoint result], Except.ok result)
    | none => ([], Except.error "ResponseDecodeError")
  else
    ([mockFailLogEntry endpoint response], Except.error (mockErrorMessage response))

/-- `callMockServer(config, endpoint, body, logger)` together with the given
response: yields the outgoing request (url from `mockServerUrl` with the
default base, POST, JSON content type, stringified body), the emitted log
entries (the pre-call line always comes first, before the response is
known), and the returned/thrown outcome. -/
def callMockServer (config : PluginConfig) (endpoint : String) (body : JSRecord)
    (response : HttpResponse) :
    FetchRequest × List LogEntry × Except String JSValue :=
  let baseUrl := config.mockServerUrl.getD "http://localhost:3001"
  let outcome := mockResponseOutcome endpoint response
  (⟨baseUrl ++ endpoint, "POST", "application/json", stringifyRecord body⟩,
    mockPreLogEntry endpoint body :: outcome.1, outcome.2)

/-- One block of the tool result envelope. -/
structure ContentBlock where
  type : String
  text : String
deriving Repr, DecidableEq

/-- The envelope a tool handler returns to the host. -/
structure ToolResultEnvelope where
  content : List ContentBlock
deriving Repr, DecidableEq

/-- The endpoint routed for a tool: `/tools/<toolName>`. -/
def toolEndpoint (toolName : String) : String := "/tools/" ++ toolName

/-- The registered `execute(...args)` handler for one catalog entry
(index.ts): extract the params, call the mock server, and wrap a successful
result into `{content: [{type: "text", text: JSON.stringify(result, null, 2)}]}`;
an error from the proxy propagates unmodified. -/
def executeTool (config : PluginConfig) (toolName : String) (args : List JSValue)
    (response : HttpResponse) :
    FetchRequest × List LogEntry × Except String ToolResultEnvelope :=
  let extracted := extractParams args
  let call := callMockServer config (toolEndpoint toolName) extracted.1 response
  (call.1, extracted.2 ++ call.2.1,
    call.2.2.map (fun result =>
      ⟨[⟨"text", (jsonStringifyPretty result).getD "undefined"⟩]⟩))

/-- One property of a tool's JSON-schema `properties` mapping. -/
structure PropertySpec where
  type : String
  description : String
  enum : Option (List String) := none
deriving Repr, DecidableEq

/-- The `parameters` schema of a tool definition. -/
structure ToolParameters where
  type : String
  properties : List (String × PropertySpec)
  required : Option (List String) := none
deriving Repr, DecidableEq

/-- `ToolDefinition` from the source. -/
structure ToolDefinition where
  name : String
  description : String
  parameters : ToolParameters
deriving Repr, DecidableEq

/-- A string-typed property with a description. -/
def strProp (d : String) : PropertySpec := { type := "string", description := d }

/-- A number-typed property with a description. -/
def numProp (d : String) : PropertySpec := { type := "number", description := d }

/-- A boolean-typed property with a description. -/
def boolProp (d : String) : PropertySpec := { type := "boolean", description := d }

/-- A string-typed property with a description and an enum of allowed values. -/
def enumProp (d : String) (vals : List String) : PropertySpec :=
  { type := "string", description := d, enum := some vals }

/-- The static tool catalog `TOOLS` of `index.ts`, transcribed entry by
entry (apostrophes in two property descriptions are written with the `\x27`
escape; the string values are unchanged). -/
def TOOLS : List ToolDefinition := [
  { name := "slack",
    description :=
      "Interact with Slack. Supports actions: readMessages, sendMessage, " ++
      "editMessage, deleteMessage, react, reactions, pinMessage, unpinMessage, " ++
      "listPins, memberInfo, emojiList.",
    parameters := {
      type := "object",
      properties := [
        ("action", enumProp "The Slack action to perform."
          ["readMessages", "sendMessage", "editMessage", "deleteMessage",
           "react", "reactions", "pinMessage", "unpinMessage", "listPins",
           "memberInfo", "emojiList"]),
        ("to", strProp "Channel ID, user ID, or prefixed target (e.g. \"C123\", \"user:U456\", \"channel:C123\")."),
        ("content", strProp "Message text to send."),
        ("threadTs", strProp "Thread timestamp for replies."),
        ("channelId", strProp "Channel ID to read from."),
        ("limit", numProp "Max messages to return."),
        ("before", strProp "Message timestamp cursor (before)."),
        ("after", strProp "Message timestamp cursor (after)."),
        ("threadId", strProp "Thread ID to read from."),
        ("messageId", strProp "Message timestamp to edit/delete/react/pin."),
        ("emoji", strProp "Emoji name without colons (e.g. \"thumbsup\")."),
        ("remove", boolProp "If true, removes the reaction instead of adding."),
        ("userId", strProp "Slack user ID for memberInfo.")],
      required := some ["action"] } },
  { name := "exec",
    description :=
      "Execute shell commands. Use for CLI tools (himalaya for email, " ++
      "curl for Notion/Google Calendar APIs, gh for GitHub).",
    parameters := {
      type := "object",
      properties := [
        ("command", strProp "Shell command to execute."),
        ("workdir", strProp "Working directory (defaults to cwd)."),
        ("timeout", numProp "Timeout in seconds."),
        ("background", boolProp "Run in background immediately.")],
      required := some ["command"] } },
  { name := "memory_search",
    description :=
      "Mandatory recall step: semantically search MEMORY.md + memory/*.md " ++
      "before answering questions about prior work, decisions, dates, people, " ++
      "preferences, or todos; returns top snippets with path + lines.",
    parameters := {
      type := "object",
      properties := [
        ("query", strProp "Semantic search query."),
        ("maxResults", numProp "Maximum results to return."),
        ("minScore", numProp "Minimum relevance score threshold.")],
      required := some ["query"] } },
  { name := "memory_get",
    description :=
      "Safe snippet read from MEMORY.md or memory/*.md with optional " ++
      "from/lines; use after memory_search to pull only the needed lines.",
    parameters := {
      type := "object",
      properties := [
        ("path", strProp "Path to memory file."),
        ("from", numProp "Starting line number."),
        ("lines", numProp "Number of lines to read.")],
      required := some ["path"] } },
  { name := "web_search",
    description := "Search the web. Returns titles, URLs, and snippets.",
    parameters := {
      type := "object",
      properties := [
        ("query", strProp "Search query string."),
        ("count", numProp "Number of results to return (1-10)."),
        ("country", strProp "2-letter country code for region-specific results (e.g. \x27US\x27)."),
        ("freshness", strProp "Filter by time: \x27pd\x27 (24h), \x27pw\x27 (week), \x27pm\x27 (month), \x27py\x27 (year).")],
      required := some ["query"] } },
  { name := "web_fetch",
    description := "Fetch and extract readable content from a URL (HTML to markdown/text).",
    parameters := {
      type := "object",
      properties := [
        ("url", strProp "HTTP or HTTPS URL to fetch."),
        ("extractMode", enumProp "Extraction mode (\"markdown\" or \"text\")."
          ["markdown", "text"]),
        ("maxChars", numProp "Maximum characters to return.")],
      required := some ["url"] } },
  { name := "read",
    description := "Read the contents of a file by path.",
    parameters := {
      type := "object",
      properties := [
        ("path", strProp "Absolute or workspace-relative file path to read."),
        ("from", numProp "Starting line number."),
        ("lines", numProp "Number of lines to read.")],
      required := some ["path"] } }]

/-- The `register(api)` pass of `index.ts`: resolve the plugin config once,
then register one handler per catalog entry (the handler closes over the
shared config snapshot). The result models the host-visible registrations:
the registered name and the execution handler. Nothing in the loop inspects
the config, so registration succeeds for every entry regardless of it. -/
def register (entries : Option (List (String × PluginEntry))) :
    List (String ×
      (List JSValue → HttpResponse →
        FetchRequest × List LogEntry × Except String ToolResultEnvelope)) :=
  let pluginConfig := getPluginConfig entries
  TOOLS.map (fun tool =>
    (tool.name, fun args response => executeTool pluginConfig tool.name args response))

/-- The structural condition under which `extractParams` (index.ts) reaches
its final warning fallback: a non-empty argument list whose first element is
neither the string head of an id-tagged call (with arity at least 2) nor a
usable parameter object. -/
def unrecognizedShape (args : List JSValue) : Bool :=
  !args.isEmpty &&
    !(jsTypeOf (args.headD JSValue.undef) == "string" && decide (2 ≤ args.length)) &&
    !isUsableParams (args.headD JSValue.undef)

/-- Substring containment on strings, used to state what a diagnostic
message carries. -/
def strContains (s t : String) : Prop := ∃ a b, s = a ++ t ++ b

/-- A parameter object whose serialization is far longer than any truncation
bound the plugin uses elsewhere (500 for argument dumps, 200 for result
previews). -/
def bigBody : JSRecord := [("data", JSValue.str (String.mk (List.replicate 600 'a')))]

/-- The usable-params condition holds exactly on plain objects. -/
theorem isUsableParams_iff_obj (v : JSValue) :
    isUsableParams v = true ↔ ∃ fs, v = JSValue.obj fs := by
  cases v <;>
    simp [isUsableParams, jsIsNull, jsIsUndefined, jsTypeOf, jsIsArray]

/-- `typeof v === "string"` holds exactly on strings. -/
theorem jsTypeOf_eq_string_iff (v : JSValue) :
    jsTypeOf v = "string" ↔ ∃ s, v = JSValue.str s := by
  cases v <;> simp [jsTypeOf]

/-- Branch equation: the empty argument list. -/
theorem extractParams_nil : extractParams [] = ([], []) := rfl

/-- Branch equation: id-tagged calls `(callId, params, ...)`. -/
theorem extractParams_str_cons (s : String) (p : JSValue) (rest : List JSValue) :
    extractParams (JSValue.str s :: p :: rest) =
      if isUsableParams p then (jsObjFields p, []) else ([], []) := by
  unfold extractParams
  simp [jsTypeOf, List.getD]

/-- Branch equation: a plain object first argument is used directly,
whatever follows it. -/
theorem extractParams_obj_first (fs : JSRecord) (rest : List JSValue) :
    extractParams (JSValue.obj fs :: rest) = (fs, []) := by
  unfold extractParams
  simp [jsTypeOf, isUsableParams, jsIsNull, jsIsUndefined, jsIsArray, jsObjFields]

/-- Branch equation: the warning fallback for every remaining shape. -/
theorem extractParams_fallback (first : JSValue) (rest : List JSValue)
    (hstr : ¬ (jsTypeOf first = "string" ∧ 2 ≤ (first :: rest).length))
    (husable : isUsableParams first = false) :
    extractParams (first :: rest) = ([], [⟨LogLevel.warn, warnShapeMsg⟩]) := by
  unfold extractParams
  rw [if_neg (by simp : ¬ (first :: rest).length = 0)]
  rw [if_neg (by simpa [List.headD] using hstr)]
  simp [List.headD, husable]

/-- C1: `extractParams` follows the priority algorithm on every supported
argument shape — the empty argument list yields the empty mapping; an
id-tagged call `(callId : string, paramsObject, ...rest)` yields
`paramsObject` exactly when it is a non-null, non-array object and the empty
mapping otherwise; a first argument that is itself a plain object is
returned directly; and every other shape yields the empty mapping. -/
theorem c1_extract_params_priority (args : List JSValue) :
    (args = [] → (extractParams args).1 = []) ∧
    (∀ s p rest, args = JSValue.str s :: p :: rest →
      (extractParams args).1 = if isUsableParams p then jsObjFields p else []) ∧
    (∀ fs rest, args = JSValue.obj fs :: rest → (extractParams args).1 = fs) ∧
    (args ≠ [] → (∀ s p rest, args ≠ JSValue.str s :: p :: rest) →
      isUsableParams (args.headD JSValue.undef) = false →
      (extractParams args).1 = []) := by
  refine ⟨?_, ?_, ?_, ?_⟩
  · rintro rfl; rfl
  · rintro s p rest rfl
    rw [extractParams_str_cons]
    split <;> rfl
  · rintro fs rest rfl
    rw [extractParams_obj_first]
  · intro hne hshape husable
    cases args with
    | nil => exact absurd rfl hne
    | cons first rest =>
      have hstr : ¬ (jsTypeOf first = "string" ∧ 2 ≤ (first :: rest).length) := by
        rintro ⟨hty, hlen⟩
        obtain ⟨s, rfl⟩ := (jsTypeOf_eq_string_iff first).1 hty
        cases rest with
        | nil => simp at hlen
        | cons p rest' => exact hshape s p rest' rfl
      rw [extractParams_fallback first rest hstr (by simpa [List.headD] using husable)]

/-- Witness for C1: an id-tagged call with a concrete parameter object. -/
theorem c1_extract_params_priority_witness :
    (extractParams [JSValue.str "call-1", JSValue.obj [("a", JSValue.num 1)]]).1 =
      if isUsableParams (JSValue.obj [("a", JSValue.num 1)]) then
        jsObjFields (JSValue.obj [("a", JSValue.num 1)]) else [] :=
  (c1_extract_params_priority _).2.1 "call-1" _ [] rfl

set_option maxRecDepth 8000 in
/-- C5: in the tool catalog, every name is unique and every required
parameter name is a key of the corresponding properties mapping. -/
theorem c5_catalog_invariants :
    (TOOLS.map (fun t => t.name)).Nodup ∧
    ∀ t ∈ TOOLS, ∀ r ∈ t.parameters.required.getD [],
      r ∈ t.parameters.properties.map Prod.fst := by decide

/-- C6: the extractor recovers every unrecognized argument shape locally —
in particular a single array argument yields the empty mapping together with
exactly one warning log entry, and every shape reaching the fallback yields
the empty mapping with that one warning instead of an error (the embedding
is a total function: no path of the source throws). -/
theorem c6_extractor_recovery :
    (∀ elems, extractParams [JSValue.arr elems] =
      ([], [⟨LogLevel.warn, warnShapeMsg⟩])) ∧
    (∀ args, unrecognizedShape args = true →
      extractParams args = ([], [⟨LogLevel.warn, warnShapeMsg⟩])) := by
  constructor
  · intro elems
    apply extractParams_fallback
    · rintro ⟨hty, _⟩
      simp [jsTypeOf] at hty
    · rfl
  · intro args h
    cases args with
    | nil => simp [unrecognizedShape] at h
    | cons first rest =>
      simp only [unrecognizedShape, List.isEmpty_cons, Bool.not_false, Bool.true_and,
        Bool.and_eq_true, Bool.not_eq_true', List.headD_cons] at h
      obtain ⟨h1, h2⟩ := h
      apply extractParams_fallback
      · rintro ⟨hty, hlen⟩
        simp [hty] at h1
        subst h1
        simp at hlen
      · exact h2

/-- Witness for C6: a single number argument reaches the warning fallback. -/
theorem c6_extractor_recovery_witness :
    extractParams [JSValue.num 7] = ([], [⟨LogLevel.warn, warnShapeMsg⟩]) :=
  c6_extractor_recovery.2 [JSValue.num 7] (by decide)

set_option maxRecDepth 100000 in
/-- C7 counterexample: the pre-call info line embeds the FULL serialization
of the request body — at this concrete call the logged body serialization is
611 characters long, beyond every truncation bound the plugin uses, so the
logged serialization is not size-bounded/truncated as the claim states. -/
theorem c7_counterexample_untruncated :
    500 < (stringifyRecord bigBody).length ∧
    (callMockServer ⟨none, none⟩ "/tools/slack" bigBody
        ⟨500, "Internal Server Error", some "db unavailable", none⟩).2.1.head? =
      some ⟨LogLevel.info,
        "[mock-call] POST " ++ "/tools/slack" ++ " body=" ++ stringifyRecord bigBody⟩ :=
  ⟨by decide, rfl⟩

/-- C7 (amended): before the request is issued, `callMockServer` emits an
informational log entry containing the endpoint and the full, untruncated
JSON serialization of the request body; the entry is the first log line of
every call, including calls that subsequently fail. -/
theorem c7_pre_call_log (config : PluginConfig) (endpoint : String)
    (body : JSRecord) (response : HttpResponse) :
    (callMockServer config endpoint body response).2.1.head? =
      some ⟨LogLevel.info, "[mock-call] POST " ++ endpoint ++ " body=" ++ stringifyRecord body⟩ :=
  rfl

/-- C8 counterexample: a successful extraction with a plain-object argument
emits no log entry at all in the current revision of the extractor. -/
theorem c8_counterexample_silent_success :
    (extractParams [JSValue.obj [("a", JSValue.num 1)]]).1 = [("a", JSValue.num 1)] ∧
    (extractParams [JSValue.obj [("a", JSValue.num 1)]]).2 = [] :=
  ⟨rfl, rfl⟩

/-- C8 (amended): the earlier revision's extractor logs every extraction
attempt — its first log entry on every path carries the argument count and
the serialized arguments truncated to 500 characters; the current revision's
extractor logs only on the warning fallback. -/
theorem c8_v0_logs_every_attempt (args : List JSValue) :
    (extractParamsV0 args).2.head? = some (v0CallLogEntry args) ∧
    (v0CallLogEntry args).msg =
      "[params-debug] execute() called with " ++ toString args.length ++ " arg(s): " ++
        ((stringifyVal (JSValue.arr args)).getD "undefined").take 500 := by
  refine ⟨?_, rfl⟩
  by_cases h0 : args.length = 0
  · simp [extractParamsV0, h0]
  · by_cases h1 : jsTypeOf (args.headD JSValue.undef) = "string" ∧ 2 ≤ args.length
    · simp only [extractParamsV0, if_neg h0, if_pos h1]
      split <;> rfl
    · simp only [extractParamsV0, if_neg h0, if_neg h1]
      split
      · rfl
      · split <;> rfl

/-- C2: on every non-2xx response, `callMockServer` throws — the outcome is
an error whose message contains the numeric status code, the status text,
and the response body text (the placeholder "(no body)" standing in when
reading the body itself fails), and no partial or default result is
returned. -/
theorem c2_non2xx_throws (config : PluginConfig) (endpoint : String)
    (body : JSRecord) (response : HttpResponse) (h : ¬ responseOk response) :
    (callMockServer config endpoint body response).2.2 =
      Except.error (mockErrorMessage response) ∧
    strContains (mockErrorMessage response) (toString response.status) ∧
    strContains (mockErrorMessage response) response.statusText ∧
    strContains (mockErrorMessage response)
      (response.bodyTextResult.getD "(no body)") ∧
    ∀ v, (callMockServer config endpoint body response).2.2 ≠ Except.ok v := by
  have houtcome : (callMockServer config endpoint body response).2.2 =
      Except.error (mockErrorMessage response) := by
    simp [callMockServer, mockResponseOutcome, h]
  refine ⟨houtcome, ?_, ?_, ?_, ?_⟩
  · exact ⟨"Mock server error: ",
      " " ++ response.statusText ++ " — " ++ mockErrorText response,
      by simp [mockErrorMessage, String.append_assoc]⟩
  · exact ⟨"Mock server error: " ++ toString response.status ++ " ",
      " — " ++ mockErrorText response,
      by simp [mockErrorMessage, String.append_assoc]⟩
  · exact ⟨"Mock server error: " ++ toString response.status ++ " " ++
        response.statusText ++ " — ", "",
      by simp [mockErrorMessage, mockErrorText, String.append_assoc, String.append_empty]⟩
  · intro v
    rw [houtcome]
    exact fun hcontra => Except.noConfusion hcontra

/-- Witness for C2: the spec's HTTP-failure scenario — status 500 with body
"db unavailable". -/
theorem c2_non2xx_throws_witness :
    (callMockServer ⟨none, none⟩ "/tools/slack" []
        ⟨500, "Internal Server Error", some "db unavailable", none⟩).2.2 =
      Except.error (mockErrorMessage
        ⟨500, "Internal Server Error", some "db unavailable", none⟩) ∧
    strContains (mockErrorMessage
        ⟨500, "Internal Server Error", some "db unavailable", none⟩)
      (toString (500 : Nat)) ∧
    strContains (mockErrorMessage
        ⟨500, "Internal Server Error", some "db unavailable", none⟩)
      "Internal Server Error" ∧
    strContains (mockErrorMessage
        ⟨500, "Internal Server Error", some "db unavailable", none⟩)
      ((some "db unavailable").getD "(no body)") ∧
    ∀ v, (callMockServer ⟨none, none⟩ "/tools/slack" []
        ⟨500, "Internal Server Error", some "db unavailable", none⟩).2.2 ≠
      Except.ok v :=
  c2_non2xx_throws ⟨none, none⟩ "/tools/slack" []
    ⟨500, "Internal Server Error", some "db unavailable", none⟩ (by decide)

/-- C3: on a 2xx response whose body decodes to `v`, `callMockServer`
returns `v` unchanged, and the registered handler wraps it into exactly one
text content block whose text is the pretty-printed (indent 2) JSON of `v`. -/
theorem c3_success_envelope (config : PluginConfig) (endpoint : String)
    (body : JSRecord) (response : HttpResponse) (v : JSValue) (t : String)
    (hok : responseOk response) (hjson : response.jsonResult = some v)
    (ht : jsonStringifyPretty v = some t) :
    (callMockServer config endpoint body response).2.2 = Except.ok v ∧
    ∀ toolName args,
      (executeTool config toolName args response).2.2 =
        Except.ok ⟨[⟨"text", t⟩]⟩ := by
  have hcall : ∀ endpoint' body',
      (callMockServer config endpoint' body' response).2.2 = Except.ok v := by
    intro endpoint' body'
    simp [callMockServer, mockResponseOutcome, hok, hjson]
  refine ⟨hcall endpoint body, ?_⟩
  intro toolName args
  simp [executeTool, hcall, Except.map, ht]

/-- Witness for C3: the spec's success scenario — an id-tagged call, a 200
response decoding to `{"messages": []}`, and the pretty-printed envelope. -/
theorem c3_success_envelope_witness :
    (callMockServer ⟨none, none⟩ "/tools/slack" []
        ⟨200, "OK", some "", some (JSValue.obj [("messages", JSValue.arr [])])⟩).2.2 =
      Except.ok (JSValue.obj [("messages", JSValue.arr [])]) ∧
    ∀ toolName args,
      (executeTool ⟨none, none⟩ toolName args
          ⟨200, "OK", some "", some (JSValue.obj [("messages", JSValue.arr [])])⟩).2.2 =
        Except.ok ⟨[⟨"text", "\x7b\n  \"messages\": []\n\x7d"⟩]⟩ :=
  c3_success_envelope ⟨none, none⟩ "/tools/slack" []
    ⟨200, "OK", some "", some (JSValue.obj [("messages", JSValue.arr [])])⟩
    (JSValue.obj [("messages", JSValue.arr [])])
    "\x7b\n  \"messages\": []\n\x7d" (by decide) rfl rfl

/-- C4: every proxy invocation issues a POST with Content-Type
application/json whose body is the JSON encoding of the canonical parameter
object; the empty parameter object is sent as the literal two-character
string "\x7b\x7d", never null and never an omitted body. -/
theorem c4_request_shape (config : PluginConfig) (endpoint : String)
    (body : JSRecord) (response : HttpResponse) :
    (callMockServer config endpoint body response).1.method = "POST" ∧
    (callMockServer config endpoint body response).1.contentType = "application/json" ∧
    (callMockServer config endpoint body response).1.body = stringifyRecord body ∧
    (body = [] → (callMockServer config endpoint body response).1.body = "\x7b\x7d") := by
  refine ⟨rfl, rfl, rfl, ?_⟩
  rintro rfl
  rfl

/-- Witness for C4: the empty parameter object is serialized as "\x7b\x7d". -/
theorem c4_request_shape_witness :
    (callMockServer ⟨none, none⟩ "/tools/exec" []
        ⟨200, "OK", some "", some JSValue.null⟩).1.body = "\x7b\x7d" :=
  (c4_request_shape ⟨none, none⟩ "/tools/exec" []
    ⟨200, "OK", some "", some JSValue.null⟩).2.2.2 rfl

/-- C9: when configuration resolution yields no `mockServerUrl`, the
registration pass still registers every catalog entry, and every handler's
outgoing request targets the documented default base URL
`http://localhost:3001`. -/
theorem c9_default_base_url (entries : Option (List (String × PluginEntry)))
    (h : (getPluginConfig entries).mockServerUrl = none) :
    ((register entries).map Prod.fst = TOOLS.map fun t => t.name) ∧
    ∀ p ∈ register entries, ∀ args response,
      (p.2 args response).1.url = "http://localhost:3001" ++ toolEndpoint p.1 := by
  constructor
  · simp [register]
  · intro p hp args response
    simp only [register, List.mem_map] at hp
    obtain ⟨tool, -, rfl⟩ := hp
    simp [executeTool, callMockServer, h]

/-- Witness for C9: an absent plugin entries table resolves to the empty
config, and registration still covers the whole catalog. -/
theorem c9_default_base_url_witness :
    ((register none).map Prod.fst = TOOLS.map fun t => t.name) :=
  (c9_default_base_url none rfl).1

/-- C10: two configurations that agree on `mockServerUrl` (in particular,
ones differing only in `scenario`) give handlers with identical behavior —
identical outgoing request, identical logs, identical outcome envelope — on
identical inputs and identical fixture-server responses. -/
theorem c10_scenario_noninterference (cfgA cfgB : PluginConfig)
    (h : cfgA.mockServerUrl = cfgB.mockServerUrl)
    (toolName : String) (args : List JSValue) (response : HttpResponse) :
    executeTool cfgA toolName args response = executeTool cfgB toolName args response := by
  simp [executeTool, callMockServer, h]

/-- Witness for C10: two configs differing only in scenario, on a concrete
call. -/
theorem c10_scenario_noninterference_witness :
    executeTool ⟨some "http://mock:3001", some "inbox_triage"⟩ "slack"
        [JSValue.str "call-1", JSValue.obj []]
        ⟨200, "OK", some "", some JSValue.null⟩ =
      executeTool ⟨some "http://mock:3001", some "alt_scenario"⟩ "slack"
        [JSValue.str "call-1", JSValue.obj []]
        ⟨200, "OK", some "", some JSValue.null⟩ :=
  c10_scenario_noninterference _ _ rfl "slack"
    [JSValue.str "call-1", JSValue.obj []] ⟨200, "OK", some "", some JSValue.null⟩

end TrajectorySandbox
